import Mathlib

/-!
Shallow embedding of `src/src.py` (the "Modern AI PPT Enhancer" Streamlit
script) and verification of its specification claims.

The script is a linear pipeline:
  access guard (string compare) → `extract_ppt_text` (Extractor) →
  `generate_improved_json` (Enhancer, an external service call) →
  `json.loads` → `json_to_ppt` (Builder) → save / download.

Pure functions of the script become Lean functions over explicit data
models of the python-pptx document objects they traverse or build; the
external service call, the JSON parser and the file save are oracles
(`Except`-valued parameters) to the orchestrator model.  Lengths are in
EMU (python-pptx `Inches(x)` is `914400 * x`), font sizes in points.
-/

namespace PPTEnhancer

/-! ## Input presentation model (what python-pptx parsing exposes)

A shape as seen by `extract_ppt_text` (src.py lines 29-43): it may be the
slide's designated title placeholder (`slide.shapes.title` is the first
such shape), may carry a text frame (`shape.has_text_frame`), and its text
frame holds a list of paragraph texts.  `shape.text` joins the paragraph
texts with a newline, as the python-pptx text getter does. -/

structure Shape where
  isTitle : Bool
  hasTextFrame : Bool
  paragraphs : List String
deriving DecidableEq

def Shape.text (sh : Shape) : String :=
  String.intercalate "\n" sh.paragraphs

structure Slide where
  shapes : List Shape
deriving DecidableEq

/-- A parsed presentation: an ordered list of slides, as exposed by
`Presentation(ppt_file).slides`. -/
structure Prs where
  slides : List Slide
deriving DecidableEq

/-- The per-slide record the Extractor emits: the dict
`{"heading": ..., "bullet_points": [...]}` of src.py line 33. -/
structure SlideRecord where
  heading : String
  bullet_points : List String
deriving DecidableEq

/-- `slide.shapes.title`: the first shape designated as title, or none.
python-pptx compares shapes by underlying element identity, which the list
position captures, so we also record the index for the skip test of
src.py line 37. -/
def titleIdx (shapes : List Shape) : Option Nat :=
  shapes.findIdx? (fun sh => sh.isTitle)

/-- Body of the per-slide loop of `extract_ppt_text` (src.py lines 32-42):
heading is the title shape's text stripped (line 35, empty when there is
no title shape), and bullet points are the non-empty stripped paragraphs
of every shape that has a text frame and is not the title shape, in
document order (lines 36-41). -/
def extractSlide (sl : Slide) : SlideRecord :=
  { heading :=
      match sl.shapes.find? (fun sh => sh.isTitle) with
      | some t => t.text.trim
      | none => ""
  , bullet_points :=
      (sl.shapes.enum.filter
          (fun p => p.2.hasTextFrame && (titleIdx sl.shapes != some p.1))).flatMap
        (fun p => (p.2.paragraphs.map String.trim).filter (fun t => t ≠ "")) }

/-- `extract_ppt_text` (src.py lines 29-43): one record per slide, in
source slide order. -/
def extract_ppt_text (prs : Prs) : List SlideRecord :=
  prs.slides.map extractSlide

/-! ## Builder input model (the JSON-parsed EnhancedDeck-shaped object)

`json_to_ppt` reads its input only through `content.get("title", ...)`,
`content.get("slides", [])`, `s.get("heading", "")`,
`s.get("bullet_points", [])` and `s.get("chart_type")`, so the input model
records each of those fields as optional (absent key = `none`). -/

structure InSlide where
  heading : Option String
  bullet_points : Option (List String)
  chart_type : Option String
deriving DecidableEq

structure Deck where
  title : Option String
  slides : Option (List InSlide)
deriving DecidableEq

/-! ## Output presentation model (what `json_to_ppt` builds) -/

structure RGB where
  r : Nat
  g : Nat
  b : Nat
deriving DecidableEq

/-- A paragraph of a text frame built with `add_paragraph`: its text, the
explicitly set font size in points (none = inherited), and its indentation
level. -/
structure Para where
  text : String
  fontSize : Option Nat
  level : Nat
deriving DecidableEq

/-- `Inches(h / 100)` in EMU: python-pptx `Inches(x)` is `914400 * x`,
and every length in src.py is a multiple of 0.1 inch. -/
def inches100 (h : Nat) : Nat := h * 9144

/-- A shape added to an output slide.  The constructors mirror the three
`add_*` call sites of `json_to_ppt`; `graphicFrameChart` stands for an
actual embedded chart (python-pptx `add_chart`), which the script never
creates.  For the two shapes whose text frame is set wholesale through the
`.text` setter we record the assigned string together with the styling
applied to `paragraphs[0]`; the bullet text box records its paragraph list
as built by `add_paragraph`. -/
inductive OutShape where
  | roundedRect (left top width height : Nat) (fill : RGB) (tfText : String)
      (p0Size : Nat) (p0Color : RGB) (p0Bold : Bool)
  | textbox (left top width height : Nat) (wordWrap : Bool) (paras : List Para)
  | rect (left top width height : Nat) (fill : RGB) (tfText : String)
      (p0Size : Nat) (p0Color : RGB)
  | graphicFrameChart
deriving DecidableEq

structure ContentSlide where
  background : Option RGB
  shapes : List OutShape
deriving DecidableEq

/-- An output slide: either the title-layout slide (`slide_layouts[0]`,
with title and subtitle placeholder texts) or a blank-layout content slide
(`slide_layouts[6]`). -/
inductive AnySlide where
  | titleLayout (titleText subtitleText : String)
  | blankLayout (c : ContentSlide)
deriving DecidableEq

structure OutPrs where
  slides : List AnySlide
deriving DecidableEq

/-- The chart placeholder shapes for one record (src.py lines 124-133):
`if s.get("chart_type"):` is Python truthiness of an optional string, so
the gray rectangle is added exactly when the key is present with a
non-empty value, and its text is `"[<chart_type> chart placeholder]"`. -/
def chartBoxes (s : InSlide) : List OutShape :=
  match s.chart_type with
  | some ct =>
    if ct ≠ "" then
      [ .rect (inches100 550) (inches100 500) (inches100 350) (inches100 100)
          ⟨230, 230, 230⟩ ("[" ++ ct ++ " chart placeholder]") 14 ⟨80, 80, 80⟩ ]
    else []
  | none => []

/-- Body of the per-record loop of `json_to_ppt` (src.py lines 92-133):
light-blue background; dark-blue rounded-rectangle heading box (text from
`s.get("heading", "")`, 28 pt bold white); bullet text box whose new text
frame starts with its default empty paragraph and gains one 18 pt level-0
paragraph per bullet point; optionally the gray chart placeholder. -/
def buildContentSlide (s : InSlide) : ContentSlide :=
  { background := some ⟨240, 248, 255⟩
  , shapes :=
      [ .roundedRect (inches100 50) (inches100 40) (inches100 900) (inches100 100)
          ⟨0, 102, 204⟩ (s.heading.getD "") 28 ⟨255, 255, 255⟩ true
      , .textbox (inches100 80) (inches100 160) (inches100 850) (inches100 450) true
          (⟨"", none, 0⟩ ::
            (s.bullet_points.getD []).map (fun bp => ⟨bp, some 18, 0⟩)) ]
      ++ chartBoxes s }

/-- `json_to_ppt` (src.py lines 83-136): a title slide (title text from
`content.get("title", "Untitled Presentation")`, subtitle placeholder set
to the fixed attribution string) followed by one content slide per record
of `content.get("slides", [])`, in order. -/
def json_to_ppt (content : Deck) : OutPrs :=
  { slides :=
      .titleLayout (content.title.getD "Untitled Presentation") "Enhanced by GPT-4"
        :: (content.slides.getD []).map (fun s => .blankLayout (buildContentSlide s)) }

/-! ## The fixed example JSON embedded in the Enhancer's instruction text

`generate_improved_json` (src.py lines 57-67) shows the model one literal
example of the expected reply shape: an object with title "Title" and one
slide with heading "Slide title", two bullet points "..." and chart type
"bar".  Transcribed here as the already-parsed object. -/

def exampleSlides : List InSlide :=
  [ { heading := some "Slide title"
    , bullet_points := some ["...", "..."]
    , chart_type := some "bar" } ]

def exampleDeck : Deck :=
  { title := some "Title", slides := some exampleSlides }

/-! ## Orchestrator model (module top level and the form handler)

The script body is straight-line: the access guard (src.py lines 13-19)
runs before anything else and `st.stop()`s on mismatch; on form submission
a missing upload is reported (lines 148-150); otherwise the Extractor runs
(line 153) and the try block (lines 158-171) runs the Enhancer, parses its
reply and builds and saves the file, with one `except Exception` boundary
rendering any failure as one `st.error(f"❌ Error: {e}")` message.

Effectful collaborators are oracles: `gen` is the outcome of the single
`generate_improved_json` call (the external service may raise), `parse` is
`json.loads` on the reply text, and `save` is the outcome of writing the
file.  The result pairs the user-facing outcome with the trace of pipeline
stages invoked, in execution order. -/

inductive Stage where
  | extractor
  | enhancer
  | builder
deriving DecidableEq

inductive Outcome where
  | accessDenied (msg : String)
  | idle
  | missingUpload (msg : String)
  | errorMsg (msg : String)
  | success (prs : OutPrs)
deriving DecidableEq

def runScript (userKey : Option String) (requiredKey : String)
    (submitted : Bool) (pptFile : Option Prs)
    (gen : Except String String) (parse : String → Except String Deck)
    (save : Except String Unit) : Outcome × List Stage :=
  if userKey ≠ some requiredKey then
    (.accessDenied "🔒 Access Denied: Invalid or missing key in URL.", [])
  else if !submitted then
    (.idle, [])
  else
    match pptFile with
    | none => (.missingUpload "Please upload a presentation file.", [])
    | some f =>
      let _extracted := extract_ppt_text f
      match gen with
      | .error e => (.errorMsg ("❌ Error: " ++ e), [.extractor, .enhancer])
      | .ok jsonStr =>
        match parse jsonStr with
        | .error e => (.errorMsg ("❌ Error: " ++ e), [.extractor, .enhancer])
        | .ok data =>
          let prs := json_to_ppt data
          match save with
          | .error e => (.errorMsg ("❌ Error: " ++ e), [.extractor, .enhancer, .builder])
          | .ok _ => (.success prs, [.extractor, .enhancer, .builder])

/-! ## Helper predicates and lemmas -/

/-- Whether a built shape is the gray chart placeholder rectangle. -/
def OutShape.isChartPlaceholderBox : OutShape → Bool
  | .rect _ _ _ _ fill _ _ _ => fill == ⟨230, 230, 230⟩
  | _ => false

/-- Whether a built shape is an actual embedded chart. -/
def OutShape.isChart : OutShape → Bool
  | .graphicFrameChart => true
  | _ => false

theorem filter_flatMap_eq_flatMap_ite {α β : Type} (l : List α) (p : α → Bool)
    (f : α → List β) :
    (l.filter p).flatMap f = l.flatMap (fun a => if p a then f a else []) := by
  induction l with
  | nil => rfl
  | cons a t ih =>
    by_cases h : p a <;> simp [List.filter_cons, h, ih]

/-! ## Claims -/

/-- Claim C2: for every parsed presentation with N slides, the Extractor
returns exactly N SlideRecord entries, one per source slide, in source
slide order. -/
theorem extractor_one_record_per_slide (prs : Prs) :
    (extract_ppt_text prs).length = prs.slides.length
    ∧ ∀ i : Nat, (extract_ppt_text prs)[i]? = (prs.slides[i]?).map extractSlide := by
  refine ⟨by simp [extract_ppt_text], fun i => ?_⟩
  simp [extract_ppt_text, List.getElem?_map]

/-- Claim C6: feeding the fixed example JSON embedded in the Enhancer's
instruction text through the Builder succeeds (the Builder is total on the
parsed example object) and yields 1 + number of example slides = 2 slides. -/
theorem example_json_roundtrip :
    (json_to_ppt exampleDeck).slides.length = 1 + exampleSlides.length
    ∧ (json_to_ppt exampleDeck).slides.length = 2 :=
  ⟨rfl, rfl⟩

/-- Claim C8: the Builder sets the title slide's title text to the deck's
`title` value (default "Untitled Presentation" when absent) and the
subtitle placeholder to the fixed attribution string; and missing `title`,
`slides`, `heading` or `bullet_points` fields never cause the Builder to
fail — the output coincides with the one for the deck with every missing
field replaced by its default-empty fallback. -/
theorem builder_title_slide_and_defaults (d : Deck) :
    (json_to_ppt d).slides.head? =
      some (.titleLayout (d.title.getD "Untitled Presentation") "Enhanced by GPT-4")
    ∧ json_to_ppt d =
        json_to_ppt
          { title := some (d.title.getD "Untitled Presentation")
          , slides := some ((d.slides.getD []).map (fun s =>
              { heading := some (s.heading.getD "")
              , bullet_points := some (s.bullet_points.getD [])
              , chart_type := s.chart_type })) } := by
  refine ⟨rfl, ?_⟩
  simp only [json_to_ppt, Option.getD_some, List.map_map]
  exact congrArg OutPrs.mk (congrArg (List.cons _) (List.map_congr_left (fun a _ => rfl)))

/-- Claim C9: on form submission without an uploaded file, the
Orchestrator reports a user-facing error and invokes none of the
Extractor, Enhancer and Builder. -/
theorem orchestrator_missing_upload (rk : String) (gen : Except String String)
    (parse : String → Except String Deck) (save : Except String Unit) :
    runScript (some rk) rk true none gen parse save =
      (.missingUpload "Please upload a presentation file.", []) := by
  simp [runScript]

/-- Claim C10: for every content slide the Builder produces, the bullet
text box's paragraphs are the new text frame's default empty paragraph
followed by one paragraph per bullet point in order, so the box holds
len(bullet_points) + 1 paragraphs and its first line is blank. -/
theorem builder_bullet_box_paragraphs (s : InSlide) :
    ∃ ps : List Para,
      (buildContentSlide s).shapes[1]? =
        some (.textbox (inches100 80) (inches100 160) (inches100 850) (inches100 450)
          true ps)
      ∧ ps.map Para.text = "" :: s.bullet_points.getD []
      ∧ ps.length = (s.bullet_points.getD []).length + 1
      ∧ ps.head?.map Para.text = some "" := by
  refine ⟨⟨"", none, 0⟩ :: (s.bullet_points.getD []).map (fun bp => ⟨bp, some 18, 0⟩),
    by simp [buildContentSlide], ?_, by simp, rfl⟩
  have h : ∀ l : List String,
      (l.map (fun bp => (⟨bp, some 18, 0⟩ : Para))).map Para.text = l := by
    intro l
    induction l with
    | nil => rfl
    | cons a t ih => simp [ih]
  simpa using h (s.bullet_points.getD [])

/-- Claim C1: for every EnhancedDeck-shaped object, the generated
presentation has exactly 1 + len(slides) slides (title slide first, then
one per record in record order), and each content slide's dark-blue title
shape carries exactly the corresponding record's `heading` (empty string
when the key is absent). -/
theorem builder_slide_count_and_heading_text (d : Deck) :
    (json_to_ppt d).slides.length = 1 + (d.slides.getD []).length
    ∧ ∀ i : Nat, ∀ s : InSlide, (d.slides.getD [])[i]? = some s →
        (json_to_ppt d).slides[i + 1]? = some (.blankLayout (buildContentSlide s))
        ∧ ∃ rest : List OutShape,
            (buildContentSlide s).shapes =
              .roundedRect (inches100 50) (inches100 40) (inches100 900) (inches100 100)
                ⟨0, 102, 204⟩ (s.heading.getD "") 28 ⟨255, 255, 255⟩ true :: rest := by
  refine ⟨by simp [json_to_ppt, Nat.add_comm], fun i s h => ⟨?_, ?_⟩⟩
  · simp [json_to_ppt, List.getElem?_map, h]
  · exact ⟨_, rfl⟩

/-- Witness for C1: the example deck's first content slide sits at index 1
and is built from the example record. -/
theorem builder_slide_count_and_heading_text_witness :
    (json_to_ppt exampleDeck).slides[1]? =
      some (.blankLayout (buildContentSlide
        ⟨some "Slide title", some ["...", "..."], some "bar"⟩)) :=
  ((builder_slide_count_and_heading_text exampleDeck).2 0
    ⟨some "Slide title", some ["...", "..."], some "bar"⟩ rfl).1

/-- Claim C3: the Extractor sets `heading` to the title shape's trimmed
text (empty when no title shape exists) and `bullet_points` to exactly the
non-empty trimmed paragraphs of every non-title shape carrying a text
frame, in document order; a slide whose only shapes are non-text shapes
(hence not title placeholders, which always carry a text frame) yields an
empty heading and an empty bullet list. -/
theorem extractor_heading_and_bullets (sl : Slide) :
    (extractSlide sl).heading =
      (match sl.shapes.find? (fun sh => sh.isTitle) with
        | some t => t.text.trim
        | none => "")
    ∧ (extractSlide sl).bullet_points =
        sl.shapes.enum.flatMap (fun p =>
          if p.2.hasTextFrame && (titleIdx sl.shapes != some p.1) then
            (p.2.paragraphs.map String.trim).filter (fun t => t ≠ "")
          else [])
    ∧ ((∀ sh ∈ sl.shapes, sh.hasTextFrame = false ∧ sh.isTitle = false) →
        extractSlide sl = ⟨"", []⟩) := by
  refine ⟨rfl, ?_, fun h => ?_⟩
  · exact filter_flatMap_eq_flatMap_ite sl.shapes.enum
      (fun p => p.2.hasTextFrame && (titleIdx sl.shapes != some p.1))
      (fun p => (p.2.paragraphs.map String.trim).filter (fun t => t ≠ ""))
  · have hfind : sl.shapes.find? (fun sh => sh.isTitle) = none :=
      List.find?_eq_none.mpr (fun x hx => by simp [(h x hx).2])
    have hfilter : sl.shapes.enum.filter
        (fun p => p.2.hasTextFrame && (titleIdx sl.shapes != some p.1)) = [] :=
      List.filter_eq_nil_iff.mpr (fun p hp => by
        have hp2 := (h p.2 (List.snd_mem_of_mem_enum hp)).1
        simp [hp2])
    simp [extractSlide, hfind, hfilter]

/-- Witness for C3: a slide holding a single non-text non-title shape
yields the empty record. -/
theorem extractor_heading_and_bullets_witness :
    extractSlide ⟨[⟨false, false, ["x"]⟩]⟩ = ⟨"", []⟩ :=
  (extractor_heading_and_bullets ⟨[⟨false, false, ["x"]⟩]⟩).2.2 (by decide)

/-- Claim C7: a content slide carries a gray chart-placeholder rectangle
iff its record has a non-empty `chart_type`; when it does, the third shape
is the fixed gray lower-right rectangle whose text is
"[<chart_type> chart placeholder]"; and no shape of any content slide is
an actual chart. -/
theorem chart_placeholder_iff (s : InSlide) :
    ((∃ sh ∈ (buildContentSlide s).shapes, sh.isChartPlaceholderBox = true) ↔
      ∃ ct, s.chart_type = some ct ∧ ct ≠ "")
    ∧ (∀ ct, s.chart_type = some ct → ct ≠ "" →
        (buildContentSlide s).shapes[2]? =
          some (.rect (inches100 550) (inches100 500) (inches100 350) (inches100 100)
            ⟨230, 230, 230⟩ ("[" ++ ct ++ " chart placeholder]") 14 ⟨80, 80, 80⟩))
    ∧ ∀ sh ∈ (buildContentSlide s).shapes, sh.isChart = false := by
  refine ⟨?_, ?_, ?_⟩
  · cases hcs : s.chart_type with
    | none =>
      simp [buildContentSlide, chartBoxes, hcs, OutShape.isChartPlaceholderBox]
    | some ct =>
      by_cases hc : ct = "" <;>
        simp [buildContentSlide, chartBoxes, hcs, hc, OutShape.isChartPlaceholderBox]
  · intro ct hcs hne
    simp [buildContentSlide, chartBoxes, hcs, hne]
  · intro sh hsh
    simp only [buildContentSlide, List.cons_append, List.nil_append,
      List.mem_cons] at hsh
    rcases hsh with rfl | rfl | hsh
    · rfl
    · rfl
    · cases hcs : s.chart_type with
      | none => simp [chartBoxes, hcs] at hsh
      | some ct =>
        by_cases hc : ct = ""
        · simp [chartBoxes, hcs, hc] at hsh
        · simp [chartBoxes, hcs, hc] at hsh
          rw [hsh]
          rfl

/-- Witness for C7: a record with chart type "pie" gets the gray
placeholder rectangle as its third shape. -/
theorem chart_placeholder_iff_witness :
    (buildContentSlide ⟨none, none, some "pie"⟩).shapes[2]? =
      some (.rect (inches100 550) (inches100 500) (inches100 350) (inches100 100)
        ⟨230, 230, 230⟩ ("[" ++ "pie" ++ " chart placeholder]") 14 ⟨80, 80, 80⟩) :=
  (chart_placeholder_iff ⟨none, none, some "pie"⟩).2.1 "pie" rfl (by decide)

/-- Claim C4: the Access Guard rejects — reports access denied and runs no
pipeline stage, in particular not the Extractor — exactly when the
request-supplied key is missing or differs from the configured secret; on
an exact match the outcome is never access-denied. -/
theorem access_guard_rejects_iff (uk : Option String) (rk : String) (submitted : Bool)
    (f : Option Prs) (gen : Except String String) (parse : String → Except String Deck)
    (save : Except String Unit) :
    (uk ≠ some rk →
      runScript uk rk submitted f gen parse save =
        (.accessDenied "🔒 Access Denied: Invalid or missing key in URL.", []))
    ∧ (uk = some rk →
        ∀ m, (runScript uk rk submitted f gen parse save).1 ≠ .accessDenied m) := by
  refine ⟨fun h => by simp [runScript, h], fun h m => ?_⟩
  rw [runScript.eq_def, if_neg (by simp [h])]
  cases submitted with
  | false => simp
  | true =>
    cases f with
    | none => simp
    | some prs =>
      cases gen with
      | error e => simp
      | ok j =>
        cases hp : parse j with
        | error e => simp [hp]
        | ok dd =>
          cases save with
          | error e => simp [hp]
          | ok u => simp [hp]

/-- Witness for C4: a request with no key is denied with the empty trace. -/
theorem access_guard_rejects_iff_witness :
    runScript none "secret" true none (.ok "") (fun t => .error t) (.ok ()) =
      (.accessDenied "🔒 Access Denied: Invalid or missing key in URL.", []) :=
  (access_guard_rejects_iff none "secret" true none (.ok "") (fun t => .error t)
    (.ok ())).1 (by simp)

/-- Claim C5: with the guard passed and a file uploaded, each of the three
failure sources of the enhancement-and-build phase — the service call
raising, the reply failing JSON parsing, or the build/save failing — is
caught by the single exception boundary and yields exactly one user-facing
error outcome (so malformed JSON never crashes the run), and the Enhancer
is invoked at most once, never retried. -/
theorem enhancement_error_boundary (rk : String) (f : Prs)
    (gen : Except String String) (parse : String → Except String Deck)
    (save : Except String Unit) :
    (∀ e, gen = .error e →
      runScript (some rk) rk true (some f) gen parse save =
        (.errorMsg ("❌ Error: " ++ e), [.extractor, .enhancer]))
    ∧ (∀ j e, gen = .ok j → parse j = .error e →
        runScript (some rk) rk true (some f) gen parse save =
          (.errorMsg ("❌ Error: " ++ e), [.extractor, .enhancer]))
    ∧ (∀ j d e, gen = .ok j → parse j = .ok d → save = .error e →
        runScript (some rk) rk true (some f) gen parse save =
          (.errorMsg ("❌ Error: " ++ e), [.extractor, .enhancer, .builder]))
    ∧ (runScript (some rk) rk true (some f) gen parse save).2.count .enhancer ≤ 1 := by
  refine ⟨fun e he => by simp [runScript, he],
    fun j e hj hp => by simp [runScript, hj, hp],
    fun j d e hj hp hs => by simp [runScript, hj, hp, hs], ?_⟩
  rw [runScript.eq_def, if_neg (by simp)]
  cases gen with
  | error e => simp
  | ok j =>
    cases hp : parse j with
    | error e => simp [hp]
    | ok dd =>
      cases save with
      | error e => simp [hp, List.count_cons]
      | ok u => simp [hp, List.count_cons]

/-- Witness for C5: a raising service call is reported as the single error
outcome with the Enhancer invoked exactly once. -/
theorem enhancement_error_boundary_witness :
    runScript (some "k") "k" true (some ⟨[]⟩) (.error "boom")
        (fun t => .ok ⟨some t, none⟩) (.ok ()) =
      (.errorMsg ("❌ Error: " ++ "boom"), [.extractor, .enhancer]) :=
  (enhancement_error_boundary "k" ⟨[]⟩ (.error "boom")
    (fun t => .ok ⟨some t, none⟩) (.ok ())).1 "boom" rfl

end PPTEnhancer
